import Mathlib

/-!
Shallow embedding of `src/app.py` (Orpheus-3B demo WebUI, placeholder TTS
generator) and proofs of the specification claims about it.

Modelling conventions:
* Python `str` values are Lean `String`s; `len` is `String.length`
  (both count Unicode code points).
* Python `float` values are modelled as exact rationals `ℚ`.  `round(x, 2)`
  (round half to even, as Python rounds floats) is `roundTo2`; the values the
  program rounds (`len(text)/12.0` clamped to `[1.5, 18.0]`, and the slider
  parameters) are never within a double ulp of a tie or of a clamp boundary
  in the UI-constrained ranges, so the rational model agrees with the float
  computation there.
* The two impure inputs, the wall clock and the random generator, are passed
  in as oracle parameters: `elapsed : ℚ` is the value of
  `time.time() - start` in seconds and `r : ℤ` is the value returned by
  `random.randint(50, 150)`.
* The Python dict built for the metrics is modelled as the `JVal` JSON value
  `okMetricsObj` / the empty-input object, and `json.dumps(…,
  ensure_ascii=False, indent=2)` as `renderJVal 0`.
-/

/-- The Python whitespace characters stripped by `str.strip()`: the full
Unicode whitespace set of CPython's `Py_UNICODE_ISSPACE` (tab through
carriage return, the ASCII separator controls, space, next line, no-break
space, Ogham space mark, the U+2000 to U+200A spaces, line and paragraph
separator, narrow no-break space, medium mathematical space, and the
ideographic space). -/
def isPySpace (c : Char) : Bool :=
  (0x09 ≤ c.toNat && c.toNat ≤ 0x0d) ||
  (0x1c ≤ c.toNat && c.toNat ≤ 0x1f) ||
  c.toNat = 0x20 || c.toNat = 0x85 || c.toNat = 0xa0 ||
  c.toNat = 0x1680 ||
  (0x2000 ≤ c.toNat && c.toNat ≤ 0x200a) ||
  c.toNat = 0x2028 || c.toNat = 0x2029 || c.toNat = 0x202f ||
  c.toNat = 0x205f || c.toNat = 0x3000

/-- Embedding of Python `text.strip()`: remove leading and trailing
whitespace characters. -/
def pyStrip (s : String) : String :=
  ⟨((s.data.dropWhile isPySpace).reverse.dropWhile isPySpace).reverse⟩

/-- Character map of Python `preview.replace("\n", " ")`. -/
def nlToSpace (c : Char) : Char :=
  if c = '\n' then ' ' else c

/-- Embedding of the `preview` computation in `_build_summary_text`
(src/app.py lines 43-45): strip, collapse newlines to spaces, and truncate
to 80 characters plus the ellipsis character when longer. -/
def preview (text : String) : String :=
  let p := ((pyStrip text).data.map nlToSpace)
  if p.length > 80 then String.mk (p.take 80) ++ "…" else String.mk p

/-- Round-half-to-even to the nearest integer, as Python `round` does on
floats. -/
def rndHE (q : ℚ) : ℤ :=
  if q - ⌊q⌋ < 1/2 then ⌊q⌋
  else if 1/2 < q - ⌊q⌋ then ⌊q⌋ + 1
  else if 2 ∣ ⌊q⌋ then ⌊q⌋ else ⌊q⌋ + 1

/-- Embedding of Python `round(x, 2)`. -/
def roundTo2 (q : ℚ) : ℚ :=
  (rndHE (q * 100) : ℚ) / 100

/-- Embedding of Python `f"{x:.2f}"`: the value rounded to two decimals,
printed with exactly two digits after the decimal point. -/
def fmt2 (q : ℚ) : String :=
  let n := rndHE (q * 100)
  let sign := if n < 0 ∨ (n = 0 ∧ q < 0) then "-" else ""
  let a := n.natAbs
  sign ++ toString (a / 100) ++ "." ++ (if a % 100 < 10 then "0" else "") ++ toString (a % 100)

/-- Embedding of Python `int(x)` on a real value: truncation toward zero. -/
def truncInt (q : ℚ) : ℤ :=
  if 0 ≤ q then ⌊q⌋ else ⌈q⌉

/-- src/app.py line 12. -/
def MODEL_NAME : String := "Orpheus-3B-0.1-ft-Q4_K_M-GGUF"

/-- The dedented template of `_build_summary_text` up to the voice
interpolation point.  `textwrap.dedent` removes the common 8-space margin of
the f-string and the final `.strip()` removes the surrounding newlines; the
summary string is modelled directly in that post-dedent form. -/
def sumHead : String :=
  "【占位合成结果说明】\n\n当前 WebUI 处于“轻量演示模式”，不会下载或加载任何真实的 Orpheus-3B 权重，也不会向外部服务发送请求。\n下述内容仅用于帮助用户从界面层面理解文本转语音系统的配置方式与感知效果：\n\n· 目标模型：" ++ MODEL_NAME ++ "\n· 选定音色："

/-- Template text between the voice and emotion interpolation points. -/
def sumAfterVoice : String := "\n· 情感标签："

/-- Template text between the emotion interpolation point and the preview,
containing the three `:.2f`-formatted numeric parameters. -/
def sumAfterEmotion (speed temperature top_p : ℚ) : String :=
  "\n· 语速倍率：约为标准语速的 " ++ fmt2 speed ++ " 倍\n· 采样控制：temperature=" ++ fmt2 temperature ++ ", top_p=" ++ fmt2 top_p ++ "\n\n· 文本摘要:\" "

/-- Template text after the preview interpolation point. -/
def sumTail : String :=
  " \"\n\n在真实部署环境中，本区域将展示：\n1）生成语音的主观描述（音色、情感、语速等）；\n2）若干客观指标（流式延迟、生成时长、输出长度等）；\n3）与历史合成记录的对比结果，用于评估参数调节带来的差异。"

/-- Embedding of `_build_summary_text` (src/app.py lines 34-67): the
dedented, stripped f-string with the six interpolated values. -/
def build_summary_text (text voice emotion : String) (speed temperature top_p : ℚ) : String :=
  sumHead ++ voice ++ sumAfterVoice ++ emotion ++ sumAfterEmotion speed temperature top_p ++ preview text ++ sumTail

/-- JSON values, the model of the Python dicts passed to `json.dumps`.
Object fields keep insertion order, as Python dicts do. -/
inductive JVal where
  | jstr (s : String)
  | jint (n : ℤ)
  | jnum (q : ℚ)
  | jobj (fields : List (String × JVal))
deriving Repr

/-- Look up a top-level field of a JSON object. -/
def JVal.getField : JVal → String → Option JVal
  | .jobj fields, k => List.lookup k fields
  | _, _ => none

/-- The list of top-level keys of a JSON object. -/
def JVal.keys : JVal → List String
  | .jobj fields => fields.map (·.1)
  | _ => []

/-- Remove a top-level field of a JSON object (used to compare metrics
objects up to their `latency_ms` field). -/
def JVal.eraseField : JVal → String → JVal
  | .jobj fields, k => .jobj (fields.filter (fun p => p.1 != k))
  | v, _ => v

/-- One hexadecimal digit, lowercase. -/
def hexDigit (n : Nat) : Char :=
  if n < 10 then Char.ofNat (48 + n) else Char.ofNat (87 + n)

/-- JSON string escaping as `json.dumps(…, ensure_ascii=False)` performs it:
quote, backslash and control characters are escaped, everything else
(including non-ASCII) is kept literally. -/
def escapeJsonChar (c : Char) : String :=
  if c = '"' then "\\\""
  else if c = '\\' then "\\\\"
  else if c = '\n' then "\\n"
  else if c = '\t' then "\\t"
  else if c = '\r' then "\\r"
  else if c = '\x08' then "\\b"
  else if c = '\x0c' then "\\f"
  else if c.toNat < 32 then
    String.mk ['\\', 'u', '0', '0', hexDigit (c.toNat / 16), hexDigit (c.toNat % 16)]
  else String.singleton c

/-- JSON-escape a whole string. -/
def escapeJson (s : String) : String :=
  String.join (s.data.map escapeJsonChar)

/-- Decimal rendering of a number on the hundredth grid, as Python `repr`
renders the corresponding double inside `json.dumps`: trailing zeros are not
kept, and an integral float still shows one `.0` digit. -/
def renderNum (q : ℚ) : String :=
  let sign := if q < 0 then "-" else ""
  if q.den = 1 then sign ++ toString q.num.natAbs ++ ".0"
  else if (q * 10).den = 1 then
    sign ++ toString ((q * 10).num.natAbs / 10) ++ "." ++ toString ((q * 10).num.natAbs % 10)
  else if (q * 100).den = 1 then
    sign ++ toString ((q * 100).num.natAbs / 100) ++ "." ++
      toString ((q * 100).num.natAbs % 100 / 10) ++ toString ((q * 100).num.natAbs % 10)
  else sign ++ toString q.num.natAbs ++ "/" ++ toString q.den

mutual

/-- Embedding of `json.dumps(…, ensure_ascii=False, indent=2)` at nesting
level `lvl`. -/
def renderJVal (lvl : Nat) : JVal → String
  | .jstr s => "\"" ++ escapeJson s ++ "\""
  | .jint n => toString n
  | .jnum q => renderNum q
  | .jobj [] => "\x7b\x7d"
  | .jobj (f :: fs) =>
      "\x7b\n" ++ renderFields (lvl + 1) (f :: fs) ++ "\n" ++
        String.mk (List.replicate (2 * lvl) ' ') ++ "\x7d"

/-- Render the fields of a JSON object, one per line, comma separated. -/
def renderFields (lvl : Nat) : List (String × JVal) → String
  | [] => ""
  | [(k, v)] =>
      String.mk (List.replicate (2 * lvl) ' ') ++ "\"" ++ escapeJson k ++ "\": " ++
        renderJVal lvl v
  | (k, v) :: f :: fs =>
      String.mk (List.replicate (2 * lvl) ' ') ++ "\"" ++ escapeJson k ++ "\": " ++
        renderJVal lvl v ++ ",\n" ++ renderFields lvl (f :: fs)

end

/-- The fixed retry-prompt description of the empty-input branch
(src/app.py line 87). -/
def emptyPrompt : String :=
  "请先在左侧输入一段需要合成的文本，再点击下方按钮触发占位推理。"

/-- The metrics dict of the empty-input branch (src/app.py lines 82-86). -/
def emptyMetricsObj : JVal :=
  .jobj [("status", .jstr "empty-input"),
         ("note", .jstr "请先在左侧输入待合成的文本。"),
         ("mode", .jstr "demo")]

/-- The fixed disclaimer note of the normal branch (src/app.py line 115). -/
def okNote : String :=
  "当前为占位输出，用于界面与参数调节可视化展示，不调用真实 TTS 模型。"

/-- The metrics dict of the normal branch (src/app.py lines 103-116), with
the latency already computed. -/
def okMetricsObj (latency_ms : ℤ) (text voice emotion : String)
    (speed temperature top_p : ℚ) : JVal :=
  .jobj [("mode", .jstr "demo"),
         ("status", .jstr "ok"),
         ("latency_ms", .jint latency_ms),
         ("estimated_audio_duration_s",
           .jnum (roundTo2 (max (3/2) (min 18 ((text.length : ℚ) / 12))))),
         ("voice", .jstr voice),
         ("emotion", .jstr emotion),
         ("speed_ratio", .jnum (roundTo2 speed)),
         ("sampling", .jobj [("temperature", .jnum (roundTo2 temperature)),
                             ("top_p", .jnum (roundTo2 top_p))]),
         ("note", .jstr okNote)]

/-- Embedding of `generate_tts_demo` (src/app.py lines 70-118).  `elapsed`
is the wall-clock oracle `time.time() - start` in seconds and `r` the
oracle value of `random.randint(50, 150)`; the pair returned is the
description string and the metrics dict (serialization of the dict is
`renderJVal 0`, kept separate so that field-level claims can be stated). -/
def generate_tts_demo (elapsed : ℚ) (r : ℤ) (text voice emotion : String)
    (speed temperature top_p : ℚ) : String × JVal :=
  if text = "" ∨ pyStrip text = "" then
    (emptyPrompt, emptyMetricsObj)
  else
    (build_summary_text text voice emotion speed temperature top_p,
     okMetricsObj (truncInt (elapsed * 1000) + r) text voice emotion speed temperature top_p)

/-- The claim notion of a value carrying exactly two decimal digits of
precision: `100 q` is an integer but `10 q` is not. -/
def exactlyTwoFracDigits (q : ℚ) : Prop :=
  (∃ n : ℤ, q * 100 = (n : ℚ)) ∧ ¬(∃ n : ℤ, q * 10 = (n : ℚ))

/-! ### Helper lemmas about round-half-to-even -/

theorem rndHE_intCast (n : ℤ) : rndHE (n : ℚ) = n := by
  simp [rndHE]

theorem rndHE_bounds (q : ℚ) : ⌊q⌋ ≤ rndHE q ∧ rndHE q ≤ ⌊q⌋ + 1 := by
  unfold rndHE
  split_ifs <;> omega

theorem le_rndHE {n : ℤ} {q : ℚ} (h : (n : ℚ) ≤ q) : n ≤ rndHE q := by
  have h1 : n ≤ ⌊q⌋ := Int.le_floor.mpr h
  have h2 := rndHE_bounds q
  omega

theorem rndHE_le {n : ℤ} {q : ℚ} (h : q ≤ (n : ℚ)) : rndHE q ≤ n := by
  have hfl : (⌊q⌋ : ℚ) ≤ q := Int.floor_le q
  have hfn : ⌊q⌋ ≤ n := by exact_mod_cast hfl.trans h
  unfold rndHE
  split_ifs with h1 h2 h3
  · exact hfn
  · have hq : (⌊q⌋ : ℚ) + 1/2 < q := by linarith
    have h4 : (⌊q⌋ : ℚ) < (n : ℚ) := by linarith
    have h5 : ⌊q⌋ < n := by exact_mod_cast h4
    omega
  · exact hfn
  · have hq : (⌊q⌋ : ℚ) + 1/2 = q := by linarith
    have h4 : (⌊q⌋ : ℚ) < (n : ℚ) := by linarith
    have h5 : ⌊q⌋ < n := by exact_mod_cast h4
    omega

theorem rndHE_mono {a b : ℚ} (hab : a ≤ b) : rndHE a ≤ rndHE b := by
  have hf : ⌊a⌋ ≤ ⌊b⌋ := Int.floor_le_floor hab
  rcases eq_or_lt_of_le hf with heq | hlt
  · unfold rndHE
    rw [← heq]
    have hba : a - (⌊a⌋ : ℚ) ≤ b - (⌊a⌋ : ℚ) := by
      have hcast : ((⌊a⌋ : ℤ) : ℚ) = ((⌊b⌋ : ℤ) : ℚ) := by exact_mod_cast heq
      linarith
    split_ifs <;> first | omega | linarith
  · have h1 := rndHE_bounds a
    have h2 := rndHE_bounds b
    omega

theorem roundTo2_mono {a b : ℚ} (hab : a ≤ b) : roundTo2 a ≤ roundTo2 b := by
  unfold roundTo2
  have h : rndHE (a * 100) ≤ rndHE (b * 100) := rndHE_mono (by linarith)
  have h' : ((rndHE (a * 100) : ℤ) : ℚ) ≤ ((rndHE (b * 100) : ℤ) : ℚ) := by exact_mod_cast h
  linarith

theorem roundTo2_hundredth (n : ℤ) : roundTo2 ((n : ℚ) / 100) = (n : ℚ) / 100 := by
  unfold roundTo2
  have h : (n : ℚ) / 100 * 100 = (n : ℚ) := by field_simp
  rw [h, rndHE_intCast]

theorem roundTo2_mul_100 (q : ℚ) : roundTo2 q * 100 = ((rndHE (q * 100) : ℤ) : ℚ) := by
  unfold roundTo2
  field_simp

theorem le_roundTo2 {n : ℤ} {q : ℚ} (h : (n : ℚ) / 100 ≤ q) : (n : ℚ) / 100 ≤ roundTo2 q := by
  have h1 : (n : ℚ) ≤ q * 100 := by linarith
  have h2 : n ≤ rndHE (q * 100) := le_rndHE h1
  have h3 : ((n : ℤ) : ℚ) ≤ ((rndHE (q * 100) : ℤ) : ℚ) := by exact_mod_cast h2
  unfold roundTo2
  linarith

theorem roundTo2_le {n : ℤ} {q : ℚ} (h : q ≤ (n : ℚ) / 100) : roundTo2 q ≤ (n : ℚ) / 100 := by
  have h1 : q * 100 ≤ (n : ℚ) := by linarith
  have h2 : rndHE (q * 100) ≤ n := rndHE_le h1
  have h3 : ((rndHE (q * 100) : ℤ) : ℚ) ≤ ((n : ℤ) : ℚ) := by exact_mod_cast h2
  unfold roundTo2
  linarith

theorem empty_branch_eq (elapsed : ℚ) (r : ℤ) (text voice emotion : String)
    (speed temperature top_p : ℚ) (h : text = "" ∨ pyStrip text = "") :
    generate_tts_demo elapsed r text voice emotion speed temperature top_p
      = (emptyPrompt, emptyMetricsObj) := by
  simp only [generate_tts_demo]
  rw [if_pos h]

theorem ok_branch_eq (elapsed : ℚ) (r : ℤ) (text voice emotion : String)
    (speed temperature top_p : ℚ) (h : pyStrip text ≠ "") :
    generate_tts_demo elapsed r text voice emotion speed temperature top_p
      = (build_summary_text text voice emotion speed temperature top_p,
         okMetricsObj (truncInt (elapsed * 1000) + r) text voice emotion
           speed temperature top_p) := by
  have hc : ¬(text = "" ∨ pyStrip text = "") := by
    rintro (rfl | hh)
    · exact h rfl
    · exact h hh
  simp only [generate_tts_demo]
  rw [if_neg hc]

/-! ### The claims -/

/-- C1: for empty or whitespace-only input text, `generate_tts_demo` returns
the fixed retry-prompt string as description, and the metrics mapping holds
exactly the three fields status/note/mode (serialized as the fixed indented
JSON text); `latency_ms` and `estimated_audio_duration_s` are absent. -/
theorem c1_empty_input_branch (elapsed : ℚ) (r : ℤ) (text voice emotion : String)
    (speed temperature top_p : ℚ) (h : text = "" ∨ pyStrip text = "") :
    generate_tts_demo elapsed r text voice emotion speed temperature top_p
      = (emptyPrompt, emptyMetricsObj)
    ∧ (generate_tts_demo elapsed r text voice emotion speed temperature top_p).2.keys
      = ["status", "note", "mode"]
    ∧ (generate_tts_demo elapsed r text voice emotion speed temperature top_p).2.getField
        "latency_ms" = none
    ∧ (generate_tts_demo elapsed r text voice emotion speed temperature top_p).2.getField
        "estimated_audio_duration_s" = none
    ∧ renderJVal 0 (generate_tts_demo elapsed r text voice emotion speed temperature top_p).2
      = "\x7b\n  \"status\": \"empty-input\",\n  \"note\": \"请先在左侧输入待合成的文本。\",\n  \"mode\": \"demo\"\n\x7d" := by
  have hgen := empty_branch_eq elapsed r text voice emotion speed temperature top_p h
  refine ⟨hgen, ?_, ?_, ?_, ?_⟩ <;> rw [hgen]
  · decide
  · rfl
  · rfl
  · decide

/-- Witness for C1 at a whitespace-only input mixing an ideographic space,
a no-break space and ASCII whitespace: `"　  \n\t "`. -/
theorem c1_witness :
    generate_tts_demo 0 50 "　  \n\t " "tara（通用女声）" "中性 <neutral>" 1 (3/5) (9/10)
      = (emptyPrompt, emptyMetricsObj) :=
  (c1_empty_input_branch 0 50 "　  \n\t " "tara（通用女声）" "中性 <neutral>" 1 (3/5)
    (9/10) (Or.inr (by decide))).1

/-- C2: for non-empty (after trim) input, `estimated_audio_duration_s`
equals `round(clamp(len(text)/12, 1.5, 18), 2)`, always lies in
`[1.5, 18]`, and equals `18` at length 300 and `1.5` at length 2. -/
theorem c2_estimated_duration (elapsed : ℚ) (r : ℤ) (text voice emotion : String)
    (speed temperature top_p : ℚ) (h : pyStrip text ≠ "") :
    (generate_tts_demo elapsed r text voice emotion speed temperature top_p).2.getField
        "estimated_audio_duration_s"
      = some (.jnum (roundTo2 (max (3/2) (min 18 ((text.length : ℚ) / 12)))))
    ∧ 3/2 ≤ roundTo2 (max (3/2) (min 18 ((text.length : ℚ) / 12)))
    ∧ roundTo2 (max (3/2) (min 18 ((text.length : ℚ) / 12))) ≤ 18
    ∧ (text.length = 300 → roundTo2 (max (3/2) (min 18 ((text.length : ℚ) / 12))) = 18)
    ∧ (text.length = 2 → roundTo2 (max (3/2) (min 18 ((text.length : ℚ) / 12))) = 3/2) := by
  have hgen := ok_branch_eq elapsed r text voice emotion speed temperature top_p h
  refine ⟨by rw [hgen]; rfl, ?_, ?_, ?_, ?_⟩
  · have hlo : (3/2 : ℚ) ≤ max (3/2) (min 18 ((text.length : ℚ) / 12)) := le_max_left _ _
    have h1 := le_roundTo2 (n := 150)
      (q := max (3/2) (min 18 ((text.length : ℚ) / 12))) (by push_cast; linarith)
    push_cast at h1
    linarith
  · have hhi : max (3/2 : ℚ) (min 18 ((text.length : ℚ) / 12)) ≤ 18 :=
      max_le (by norm_num) (min_le_left _ _)
    have h1 := roundTo2_le (n := 1800)
      (q := max (3/2) (min 18 ((text.length : ℚ) / 12))) (by push_cast; linarith)
    push_cast at h1
    linarith
  · intro hlen
    have hcl : max (3/2 : ℚ) (min 18 ((text.length : ℚ) / 12)) = 18 := by
      rw [hlen]
      norm_num [min_def, max_def]
    rw [hcl]
    have h18 := roundTo2_hundredth 1800
    norm_num at h18
    exact h18
  · intro hlen
    have hcl : max (3/2 : ℚ) (min 18 ((text.length : ℚ) / 12)) = 3/2 := by
      rw [hlen]
      norm_num [min_def, max_def]
    rw [hcl]
    have h15 := roundTo2_hundredth 150
    norm_num at h15
    exact h15

/-- Witness for C2: at the two-character input `"ab"` the estimated
duration is exactly `1.5`. -/
theorem c2_witness :
    (generate_tts_demo 0 50 "ab" "tara（通用女声）" "愉悦 <laugh>" 1 (3/5) (9/10)).2.getField
        "estimated_audio_duration_s" = some (JVal.jnum (3/2)) := by
  have h := c2_estimated_duration 0 50 "ab" "tara（通用女声）" "愉悦 <laugh>" 1 (3/5) (9/10)
    (by decide)
  have h2 := h.2.2.2.2 (by decide)
  rw [h.1, h2]

/-- C5: for non-empty input, `latency_ms` is the truncated elapsed
milliseconds of the description-construction step plus the random offset
`r ∈ [50, 150]`; it is at least 50, at least the base elapsed time, and at
most the base plus 150. -/
theorem c5_latency_bounds (elapsed : ℚ) (r : ℤ) (text voice emotion : String)
    (speed temperature top_p : ℚ) (he : 0 ≤ elapsed) (hr1 : 50 ≤ r) (hr2 : r ≤ 150)
    (h : pyStrip text ≠ "") :
    (generate_tts_demo elapsed r text voice emotion speed temperature top_p).2.getField
        "latency_ms" = some (.jint (truncInt (elapsed * 1000) + r))
    ∧ 50 ≤ truncInt (elapsed * 1000) + r
    ∧ truncInt (elapsed * 1000) ≤ truncInt (elapsed * 1000) + r
    ∧ truncInt (elapsed * 1000) + r ≤ truncInt (elapsed * 1000) + 150 := by
  have hgen := ok_branch_eq elapsed r text voice emotion speed temperature top_p h
  have hnn : (0 : ℚ) ≤ elapsed * 1000 := mul_nonneg he (by norm_num)
  have htr : 0 ≤ truncInt (elapsed * 1000) := by
    unfold truncInt
    rw [if_pos hnn]
    exact Int.floor_nonneg.mpr hnn
  exact ⟨by rw [hgen]; rfl, by omega, by omega, by omega⟩

/-- Witness for C5 at elapsed time 0 and random offset 50. -/
theorem c5_witness :
    (generate_tts_demo 0 50 "ab" "leah（温柔女声）" "悲伤 <cry>" 1 (3/5) (9/10)).2.getField
        "latency_ms" = some (.jint (truncInt (0 * 1000) + 50))
    ∧ 50 ≤ truncInt ((0 : ℚ) * 1000) + 50 := by
  have h := c5_latency_bounds 0 50 "ab" "leah（温柔女声）" "悲伤 <cry>" 1 (3/5) (9/10)
    le_rfl (by norm_num) (by norm_num) (by decide)
  exact ⟨h.1, h.2.1⟩

/-- C7: `generate_tts_demo` never fails: it is a total function returning a
(description, metrics) pair for every input, the metrics status is always
either `"ok"` or `"empty-input"`, and every input whose text is non-empty
after trimming gets status `"ok"`. -/
theorem c7_never_fails (elapsed : ℚ) (r : ℤ) (text voice emotion : String)
    (speed temperature top_p : ℚ) :
    (generate_tts_demo elapsed r text voice emotion speed temperature top_p).2.getField "status"
      = some (.jstr (if text = "" ∨ pyStrip text = "" then "empty-input" else "ok"))
    ∧ ((generate_tts_demo elapsed r text voice emotion speed temperature top_p).2.getField
          "status" = some (.jstr "ok")
       ∨ (generate_tts_demo elapsed r text voice emotion speed temperature top_p).2.getField
          "status" = some (.jstr "empty-input")) := by
  by_cases h : text = "" ∨ pyStrip text = ""
  · have hgen := empty_branch_eq elapsed r text voice emotion speed temperature top_p h
    rw [hgen, if_pos h]
    exact ⟨rfl, Or.inr rfl⟩
  · have h' : pyStrip text ≠ "" := by
      intro hh
      exact h (Or.inr hh)
    have hgen := ok_branch_eq elapsed r text voice emotion speed temperature top_p h'
    rw [hgen, if_neg h]
    exact ⟨rfl, Or.inl rfl⟩

/-- Witness for C7 at a concrete non-empty input: the status is `"ok"`. -/
theorem c7_witness :
    (generate_tts_demo 0 50 "hello" "zoe（少年音）" "思考 <hmm>" 1 (3/5) (9/10)).2.getField
        "status" = some (.jstr "ok") := by
  have h := (c7_never_fails 0 50 "hello" "zoe（少年音）" "思考 <hmm>" 1 (3/5) (9/10)).1
  rw [h]
  rfl

/-- C4 is refuted as stated: with `speed = 1.0` the `speed_ratio` metrics
value is `round(1.0, 2) = 1.0`, which does not carry exactly two decimal
digits of precision and serializes as `"1.0"` (one digit), not `"1.00"`. -/
theorem c4_counterexample :
    (generate_tts_demo 0 50 "你好" "tara（通用女声）" "中性 <neutral>" 1 (3/5) (9/10)).2.getField
        "speed_ratio" = some (.jnum (roundTo2 1))
    ∧ roundTo2 1 = 1
    ∧ ¬ exactlyTwoFracDigits 1
    ∧ renderNum 1 = "1.0" := by
  have hr : roundTo2 1 = 1 := by
    have h := roundTo2_hundredth 100
    norm_num at h
    exact h
  refine ⟨?_, hr, ?_, ?_⟩
  · rw [ok_branch_eq 0 50 "你好" "tara（通用女声）" "中性 <neutral>" 1 (3/5) (9/10) (by decide)]
    rfl
  · rintro ⟨-, h2⟩
    exact h2 ⟨10, by norm_num⟩
  · decide

/-- C4 (amended): `speed_ratio`, `sampling.temperature` and
`sampling.top_p` are the inputs rounded to two decimal places (one
hundredth of precision, so at most two fractional digits), but trailing
zeros are not kept by the serialization, so they need not show exactly two
digits. -/
theorem c4_rounded_to_two_decimals (elapsed : ℚ) (r : ℤ) (text voice emotion : String)
    (speed temperature top_p : ℚ) (h : pyStrip text ≠ "") :
    (generate_tts_demo elapsed r text voice emotion speed temperature top_p).2.getField
        "speed_ratio" = some (.jnum (roundTo2 speed))
    ∧ (generate_tts_demo elapsed r text voice emotion speed temperature top_p).2.getField
        "sampling"
      = some (.jobj [("temperature", .jnum (roundTo2 temperature)),
                     ("top_p", .jnum (roundTo2 top_p))])
    ∧ (∃ n : ℤ, roundTo2 speed * 100 = (n : ℚ))
    ∧ (∃ n : ℤ, roundTo2 temperature * 100 = (n : ℚ))
    ∧ (∃ n : ℤ, roundTo2 top_p * 100 = (n : ℚ)) := by
  have hgen := ok_branch_eq elapsed r text voice emotion speed temperature top_p h
  exact ⟨by rw [hgen]; rfl, by rw [hgen]; rfl,
    ⟨rndHE (speed * 100), roundTo2_mul_100 speed⟩,
    ⟨rndHE (temperature * 100), roundTo2_mul_100 temperature⟩,
    ⟨rndHE (top_p * 100), roundTo2_mul_100 top_p⟩⟩

/-- Witness for the amended C4 at `speed = 1`. -/
theorem c4_witness :
    (generate_tts_demo 0 50 "你好" "leo（青年男声）" "惊讶 <gasp>" 1 (3/5) (9/10)).2.getField
        "speed_ratio" = some (JVal.jnum (roundTo2 1)) :=
  (c4_rounded_to_two_decimals 0 50 "你好" "leo（青年男声）" "惊讶 <gasp>" 1 (3/5) (9/10)
    (by decide)).1

/-- C6: the estimated duration is monotonically non-decreasing in the
length of the input text, and within the unclamped range (length between 18
and 216) it is exactly `len/12` rounded to two decimals. -/
theorem c6_duration_monotone (elapsed : ℚ) (r : ℤ) (t1 t2 voice emotion : String)
    (speed temperature top_p : ℚ)
    (h1 : pyStrip t1 ≠ "") (h2 : pyStrip t2 ≠ "") (hlen : t1.length ≤ t2.length) :
    ∃ q1 q2 : ℚ,
      (generate_tts_demo elapsed r t1 voice emotion speed temperature top_p).2.getField
          "estimated_audio_duration_s" = some (.jnum q1)
      ∧ (generate_tts_demo elapsed r t2 voice emotion speed temperature top_p).2.getField
          "estimated_audio_duration_s" = some (.jnum q2)
      ∧ q1 ≤ q2
      ∧ (18 ≤ t1.length → t1.length ≤ 216 → q1 = roundTo2 ((t1.length : ℚ) / 12)) := by
  refine ⟨roundTo2 (max (3/2) (min 18 ((t1.length : ℚ) / 12))),
          roundTo2 (max (3/2) (min 18 ((t2.length : ℚ) / 12))), ?_, ?_, ?_, ?_⟩
  · rw [ok_branch_eq elapsed r t1 voice emotion speed temperature top_p h1]
    rfl
  · rw [ok_branch_eq elapsed r t2 voice emotion speed temperature top_p h2]
    rfl
  · apply roundTo2_mono
    have hc : ((t1.length : ℚ)) ≤ (t2.length : ℚ) := by exact_mod_cast hlen
    have hd : (t1.length : ℚ) / 12 ≤ (t2.length : ℚ) / 12 := by linarith
    exact max_le_max le_rfl (min_le_min le_rfl hd)
  · intro ha hb
    have hc1 : (3/2 : ℚ) ≤ (t1.length : ℚ) / 12 := by
      have hx : (18 : ℚ) ≤ (t1.length : ℚ) := by exact_mod_cast ha
      linarith
    have hc2 : (t1.length : ℚ) / 12 ≤ 18 := by
      have hx : (t1.length : ℚ) ≤ (216 : ℚ) := by exact_mod_cast hb
      linarith
    rw [min_eq_right hc2, max_eq_right hc1]

/-- Witness for C6 at the inputs `"ab"` and `"abc"`. -/
theorem c6_witness :
    ∃ q1 q2 : ℚ,
      (generate_tts_demo 0 50 "ab" "mia（活泼女声）" "中性 <neutral>" 1 (3/5) (9/10)).2.getField
          "estimated_audio_duration_s" = some (JVal.jnum q1)
      ∧ (generate_tts_demo 0 50 "abc" "mia（活泼女声）" "中性 <neutral>" 1 (3/5) (9/10)).2.getField
          "estimated_audio_duration_s" = some (JVal.jnum q2)
      ∧ q1 ≤ q2 := by
  obtain ⟨q1, q2, ha, hb, hc, -⟩ := c6_duration_monotone 0 50 "ab" "abc"
    "mia（活泼女声）" "中性 <neutral>" 1 (3/5) (9/10) (by decide) (by decide) (by decide)
  exact ⟨q1, q2, ha, hb, hc⟩

/-- C8: two invocations with identical six inputs differ at most in the
`latency_ms` metrics field: the description, the metrics with the
`latency_ms` field erased, and the key list are all identical whatever the
clock and the random source return. -/
theorem c8_deterministic_up_to_latency (e1 e2 : ℚ) (r1 r2 : ℤ) (text voice emotion : String)
    (speed temperature top_p : ℚ) :
    (generate_tts_demo e1 r1 text voice emotion speed temperature top_p).1
      = (generate_tts_demo e2 r2 text voice emotion speed temperature top_p).1
    ∧ (generate_tts_demo e1 r1 text voice emotion speed temperature top_p).2.eraseField
        "latency_ms"
      = (generate_tts_demo e2 r2 text voice emotion speed temperature top_p).2.eraseField
        "latency_ms"
    ∧ (generate_tts_demo e1 r1 text voice emotion speed temperature top_p).2.keys
      = (generate_tts_demo e2 r2 text voice emotion speed temperature top_p).2.keys := by
  by_cases h : text = "" ∨ pyStrip text = ""
  · rw [empty_branch_eq e1 r1 text voice emotion speed temperature top_p h,
        empty_branch_eq e2 r2 text voice emotion speed temperature top_p h]
    exact ⟨rfl, rfl, rfl⟩
  · have h' : pyStrip text ≠ "" := fun hh => h (Or.inr hh)
    rw [ok_branch_eq e1 r1 text voice emotion speed temperature top_p h',
        ok_branch_eq e2 r2 text voice emotion speed temperature top_p h']
    exact ⟨rfl, rfl, rfl⟩

/-- Witness for C8: two calls with different clock and random values give
the same description. -/
theorem c8_witness :
    (generate_tts_demo 0 50 "hi" "dan（沉稳男声）" "中性 <neutral>" 1 (3/5) (9/10)).1
      = (generate_tts_demo (1/2) 150 "hi" "dan（沉稳男声）" "中性 <neutral>" 1 (3/5) (9/10)).1 :=
  (c8_deterministic_up_to_latency 0 (1/2) 50 150 "hi" "dan（沉稳男声）" "中性 <neutral>"
    1 (3/5) (9/10)).1

/-- C10: the truncation decision is made on the trimmed text, not on the
raw input: a raw input longer than 80 characters whose trimmed form is at
most 80 characters appears in the preview in full, with nothing appended. -/
theorem c10_truncation_on_trimmed (text : String)
    (hraw : 80 < text.length) (htrim : (pyStrip text).length ≤ 80) :
    preview text = String.mk ((pyStrip text).data.map nlToSpace)
    ∧ (preview text).length = (pyStrip text).length := by
  have hlen : ((pyStrip text).data.map nlToSpace).length = (pyStrip text).length := by
    rw [List.length_map]
    rfl
  have hp : preview text = String.mk ((pyStrip text).data.map nlToSpace) := by
    simp only [preview]
    rw [if_neg (by omega)]
  refine ⟨hp, ?_⟩
  rw [hp]
  show ((pyStrip text).data.map nlToSpace).length = _
  omega

/-- Witness for C10: 81 ideographic spaces (U+3000) followed by `"ab"`
(raw length 83, trimmed length 2) previews as the bare `"ab"`. -/
theorem c10_witness :
    preview (String.mk (List.replicate 81 '　' ++ ['a', 'b'])) = "ab" := by
  have h := c10_truncation_on_trimmed (String.mk (List.replicate 81 '　' ++ ['a', 'b']))
    (by decide) (by decide)
  rw [h.1]
  decide
